import Mathlib

/-!
Verification of the sale data-warehouse module (`sale.py`).

The core of the module is a query builder (`SaleLine.get_warehouse_query`), a
materialized-view setup routine (`SaleLine.build_data_warehouse`), a refresh
routine with a concurrency fallback (`SaleLine.refresh_data_warehouse`), and a
registration hook (`SaleLine.__register__`).  Each is embedded below as a pure
Lean function over explicit data:

* the query builder returns the view specification as data (join graph, column
  list, filter, table lookup), parameterized by the pool registry (a list of
  registered model names) so the optional `sale.channel` branch is visible;
* the setup routine returns the ordered list of SQL statements it issues, and a
  small engine-state model (from the documented engine contract for
  `DROP MATERIALIZED VIEW IF EXISTS` / `CREATE MATERIALIZED VIEW ... WITH NO
  DATA` / `CREATE UNIQUE INDEX`) lets us state idempotence;
* the refresh routine returns the trace of transaction/SQL/log events together
  with the propagated error, parameterized by driver availability and by the
  outcome of the concurrent and blocking refresh statements.
-/

namespace SaleDataWarehouse

/-- Table handles created by `get_warehouse_query`.  Each constructor is one
local variable of the Python function (one `__table__()` instance); note the
two distinct `party.address`, `country.country` and `country.subdivision`
instances. -/
inductive TableHandle
  | sale_line
  | sale_sale
  | product_template
  | product_product
  | product_category
  | party_party
  | shipment_address
  | invoice_address
  | invoice_country
  | invoice_subdivision
  | shipment_country
  | currency_currency
  | shipment_subdivision
  | sale_channel
deriving DecidableEq, Repr

/-- Pool model name each table handle is created from. -/
def TableHandle.poolName : TableHandle → String
  | .sale_line => "sale.line"
  | .sale_sale => "sale.sale"
  | .product_template => "product.template"
  | .product_product => "product.product"
  | .product_category => "product.category"
  | .party_party => "party.party"
  | .shipment_address => "party.address"
  | .invoice_address => "party.address"
  | .invoice_country => "country.country"
  | .invoice_subdivision => "country.subdivision"
  | .shipment_country => "country.country"
  | .currency_currency => "currency.currency"
  | .shipment_subdivision => "country.subdivision"
  | .sale_channel => "sale.channel"

/-- SQL value expressions used by the builder: a column of a table handle, the
`Mul` operator, and the `ToChar` function. -/
inductive SqlExpr
  | col (t : TableHandle) (field : String)
  | mul (a b : SqlExpr)
  | toChar (e : SqlExpr) (fmt : String)
deriving DecidableEq, Repr

/-- An output column: an expression with its alias (`expr.as_(name)`). -/
structure Column where
  expr : SqlExpr
  as_ : String
deriving DecidableEq, Repr

/-- SQL boolean conditions used by the builder. -/
inductive SqlCond
  | inList (e : SqlExpr) (vals : List String)
  | eqStr (e : SqlExpr) (v : String)
  | eqCol (a b : SqlExpr)
  | and (a b : SqlCond)
deriving DecidableEq, Repr

/-- Join kind: the python-sql default (INNER) or the explicit LEFT OUTER. -/
inductive JoinType
  | inner
  | leftOuter
deriving DecidableEq, Repr

/-- One join step: the joined table, the join kind, and the condition. -/
structure Join where
  tbl : TableHandle
  type_ : JoinType
  condition : SqlCond
deriving DecidableEq, Repr

/-- The join graph `from_`: the base table with the chain of joins applied. -/
structure FromClause where
  base : TableHandle
  joins : List Join
deriving DecidableEq, Repr

/-- The four-tuple returned by `get_warehouse_query`; `where` is a Lean
keyword, so the filter is named `whereClause`. -/
structure WarehouseQuery where
  from_ : FromClause
  columns : List Column
  whereClause : SqlCond
  tables : List (String × TableHandle)
deriving DecidableEq, Repr

/-- Pool lookup: `Pool().get(name).__table__()`.  A name absent from the
registry raises `KeyError`, modelled as `Except.error name`. -/
def table (pool : List String) (name : String) : Except String Unit :=
  if name ∈ pool then Except.ok () else Except.error name

/-- The pool names `get_warehouse_query` resolves unconditionally (a `KeyError`
on any of these propagates to the caller). -/
def required_tables : List String :=
  ["sale.line", "sale.sale", "product.template", "product.product",
   "product.category", "party.party", "party.address", "country.country",
   "country.subdivision", "currency.currency"]

/-- Embedding of `SaleLine.get_warehouse_query` (src/sale.py lines 32-161):
resolve every table from the pool, build the column list, the join chain, the
optional `sale.channel` extension (its `KeyError` is caught and skipped), and
the where clause; return the four-tuple. -/
def get_warehouse_query (pool : List String) : Except String WarehouseQuery :=
  Except.bind (table pool "sale.line") fun _ =>
  Except.bind (table pool "sale.sale") fun _ =>
  Except.bind (table pool "product.template") fun _ =>
  Except.bind (table pool "product.product") fun _ =>
  Except.bind (table pool "product.category") fun _ =>
  Except.bind (table pool "party.party") fun _ =>
  Except.bind (table pool "party.address") fun _ =>
  Except.bind (table pool "party.address") fun _ =>
  Except.bind (table pool "country.country") fun _ =>
  Except.bind (table pool "country.subdivision") fun _ =>
  Except.bind (table pool "country.country") fun _ =>
  Except.bind (table pool "currency.currency") fun _ =>
  Except.bind (table pool "country.subdivision") fun _ =>
  let tables : List (String × TableHandle) :=
    [("sale.line", TableHandle.sale_line),
     ("sale.sale", TableHandle.sale_sale),
     ("product.template", TableHandle.product_template),
     ("product.product", TableHandle.product_product),
     ("product.category", TableHandle.product_category),
     ("party.party", TableHandle.party_party)]
  let columns : List Column :=
    [⟨SqlExpr.col .sale_line "id", "id"⟩,
     ⟨SqlExpr.col .sale_line "quantity", "quantity"⟩,
     ⟨SqlExpr.mul (SqlExpr.col .sale_line "quantity")
        (SqlExpr.col .sale_line "unit_price"), "amount"⟩,
     ⟨SqlExpr.col .product_product "code", "product_code"⟩,
     ⟨SqlExpr.col .product_template "name", "product_name"⟩,
     ⟨SqlExpr.col .product_category "name", "product_category"⟩,
     ⟨SqlExpr.col .party_party "name", "party_name"⟩,
     ⟨SqlExpr.col .party_party "id", "party_id"⟩,
     ⟨SqlExpr.col .sale_sale "id", "sale_id"⟩,
     ⟨SqlExpr.col .sale_sale "reference", "sale_reference"⟩,
     ⟨SqlExpr.col .currency_currency "code", "currency"⟩,
     ⟨SqlExpr.col .sale_sale "state", "state"⟩,
     ⟨SqlExpr.col .invoice_country "code", "invoice_country_code"⟩,
     ⟨SqlExpr.col .invoice_country "name", "invoice_country_name"⟩,
     ⟨SqlExpr.col .invoice_subdivision "code", "invoice_state_code"⟩,
     ⟨SqlExpr.col .invoice_subdivision "name", "invoice_state_name"⟩,
     ⟨SqlExpr.col .shipment_country "code", "shipment_country_code"⟩,
     ⟨SqlExpr.col .shipment_country "name", "shipment_country_name"⟩,
     ⟨SqlExpr.col .shipment_subdivision "code", "shipment_state_code"⟩,
     ⟨SqlExpr.col .shipment_subdivision "name", "shipment_state_name"⟩,
     ⟨SqlExpr.col .sale_sale "sale_date", "sale_date"⟩,
     ⟨SqlExpr.toChar (SqlExpr.col .sale_sale "sale_date") "YYYY", "sale_year"⟩,
     ⟨SqlExpr.toChar (SqlExpr.col .sale_sale "sale_date") "MM", "sale_month"⟩,
     ⟨SqlExpr.toChar (SqlExpr.col .sale_sale "sale_date") "dd", "sale_day"⟩]
  let from_ : FromClause :=
    { base := TableHandle.sale_line
      joins :=
        [⟨.sale_sale, .inner,
          .eqCol (.col .sale_line "sale") (.col .sale_sale "id")⟩,
         ⟨.product_product, .leftOuter,
          .eqCol (.col .sale_line "product") (.col .product_product "id")⟩,
         ⟨.product_template, .leftOuter,
          .eqCol (.col .product_product "template") (.col .product_template "id")⟩,
         ⟨.product_category, .leftOuter,
          .eqCol (.col .product_template "category") (.col .product_category "id")⟩,
         ⟨.party_party, .leftOuter,
          .eqCol (.col .sale_sale "party") (.col .party_party "id")⟩,
         ⟨.shipment_address, .leftOuter,
          .eqCol (.col .sale_sale "shipment_address") (.col .shipment_address "id")⟩,
         ⟨.shipment_country, .leftOuter,
          .eqCol (.col .shipment_address "country") (.col .shipment_country "id")⟩,
         ⟨.shipment_subdivision, .leftOuter,
          .eqCol (.col .shipment_address "subdivision") (.col .shipment_subdivision "id")⟩,
         ⟨.invoice_address, .leftOuter,
          .eqCol (.col .sale_sale "invoice_address") (.col .invoice_address "id")⟩,
         ⟨.invoice_country, .leftOuter,
          .eqCol (.col .invoice_address "country") (.col .invoice_country "id")⟩,
         ⟨.invoice_subdivision, .leftOuter,
          .eqCol (.col .invoice_address "subdivision") (.col .invoice_subdivision "id")⟩,
         ⟨.currency_currency, .leftOuter,
          .eqCol (.col .sale_sale "currency") (.col .currency_currency "id")⟩] }
  let whereClause : SqlCond :=
    SqlCond.and
      (SqlCond.inList (SqlExpr.col .sale_sale "state")
        ["confirmed", "processing", "done"])
      (SqlCond.eqStr (SqlExpr.col .sale_line "type") "line")
  match table pool "sale.channel" with
  | Except.error _ =>
      -- Module is not installed
      Except.ok
        { from_ := from_, columns := columns,
          whereClause := whereClause, tables := tables }
  | Except.ok _ =>
      Except.ok
        { from_ :=
            { from_ with
                joins := from_.joins ++
                  [⟨.sale_channel, .leftOuter,
                    .eqCol (.col .sale_sale "channel") (.col .sale_channel "id")⟩] }
          columns := columns ++
            [⟨SqlExpr.col .sale_channel "code", "channel_code"⟩,
             ⟨SqlExpr.col .sale_channel "name", "channel_name"⟩]
          whereClause := whereClause, tables := tables }

/-- The view specification the builder returns, as a function of whether the
optional `sale.channel` model is registered (used as the common reference
value in the lemmas below). -/
def warehouse_query_spec (channel : Bool) : WarehouseQuery :=
  let tables : List (String × TableHandle) :=
    [("sale.line", TableHandle.sale_line),
     ("sale.sale", TableHandle.sale_sale),
     ("product.template", TableHandle.product_template),
     ("product.product", TableHandle.product_product),
     ("product.category", TableHandle.product_category),
     ("party.party", TableHandle.party_party)]
  let columns : List Column :=
    [⟨SqlExpr.col .sale_line "id", "id"⟩,
     ⟨SqlExpr.col .sale_line "quantity", "quantity"⟩,
     ⟨SqlExpr.mul (SqlExpr.col .sale_line "quantity")
        (SqlExpr.col .sale_line "unit_price"), "amount"⟩,
     ⟨SqlExpr.col .product_product "code", "product_code"⟩,
     ⟨SqlExpr.col .product_template "name", "product_name"⟩,
     ⟨SqlExpr.col .product_category "name", "product_category"⟩,
     ⟨SqlExpr.col .party_party "name", "party_name"⟩,
     ⟨SqlExpr.col .party_party "id", "party_id"⟩,
     ⟨SqlExpr.col .sale_sale "id", "sale_id"⟩,
     ⟨SqlExpr.col .sale_sale "reference", "sale_reference"⟩,
     ⟨SqlExpr.col .currency_currency "code", "currency"⟩,
     ⟨SqlExpr.col .sale_sale "state", "state"⟩,
     ⟨SqlExpr.col .invoice_country "code", "invoice_country_code"⟩,
     ⟨SqlExpr.col .invoice_country "name", "invoice_country_name"⟩,
     ⟨SqlExpr.col .invoice_subdivision "code", "invoice_state_code"⟩,
     ⟨SqlExpr.col .invoice_subdivision "name", "invoice_state_name"⟩,
     ⟨SqlExpr.col .shipment_country "code", "shipment_country_code"⟩,
     ⟨SqlExpr.col .shipment_country "name", "shipment_country_name"⟩,
     ⟨SqlExpr.col .shipment_subdivision "code", "shipment_state_code"⟩,
     ⟨SqlExpr.col .shipment_subdivision "name", "shipment_state_name"⟩,
     ⟨SqlExpr.col .sale_sale "sale_date", "sale_date"⟩,
     ⟨SqlExpr.toChar (SqlExpr.col .sale_sale "sale_date") "YYYY", "sale_year"⟩,
     ⟨SqlExpr.toChar (SqlExpr.col .sale_sale "sale_date") "MM", "sale_month"⟩,
     ⟨SqlExpr.toChar (SqlExpr.col .sale_sale "sale_date") "dd", "sale_day"⟩]
  let baseJoins : List Join :=
    [⟨.sale_sale, .inner,
      .eqCol (.col .sale_line "sale") (.col .sale_sale "id")⟩,
     ⟨.product_product, .leftOuter,
      .eqCol (.col .sale_line "product") (.col .product_product "id")⟩,
     ⟨.product_template, .leftOuter,
      .eqCol (.col .product_product "template") (.col .product_template "id")⟩,
     ⟨.product_category, .leftOuter,
      .eqCol (.col .product_template "category") (.col .product_category "id")⟩,
     ⟨.party_party, .leftOuter,
      .eqCol (.col .sale_sale "party") (.col .party_party "id")⟩,
     ⟨.shipment_address, .leftOuter,
      .eqCol (.col .sale_sale "shipment_address") (.col .shipment_address "id")⟩,
     ⟨.shipment_country, .leftOuter,
      .eqCol (.col .shipment_address "country") (.col .shipment_country "id")⟩,
     ⟨.shipment_subdivision, .leftOuter,
      .eqCol (.col .shipment_address "subdivision") (.col .shipment_subdivision "id")⟩,
     ⟨.invoice_address, .leftOuter,
      .eqCol (.col .sale_sale "invoice_address") (.col .invoice_address "id")⟩,
     ⟨.invoice_country, .leftOuter,
      .eqCol (.col .invoice_address "country") (.col .invoice_country "id")⟩,
     ⟨.invoice_subdivision, .leftOuter,
      .eqCol (.col .invoice_address "subdivision") (.col .invoice_subdivision "id")⟩,
     ⟨.currency_currency, .leftOuter,
      .eqCol (.col .sale_sale "currency") (.col .currency_currency "id")⟩]
  { from_ :=
      { base := TableHandle.sale_line
        joins :=
          if channel then
            baseJoins ++
              [⟨.sale_channel, .leftOuter,
                .eqCol (.col .sale_sale "channel") (.col .sale_channel "id")⟩]
          else baseJoins }
    columns :=
      if channel then
        columns ++
          [⟨SqlExpr.col .sale_channel "code", "channel_code"⟩,
           ⟨SqlExpr.col .sale_channel "name", "channel_name"⟩]
      else columns
    whereClause :=
      SqlCond.and
        (SqlCond.inList (SqlExpr.col .sale_sale "state")
          ["confirmed", "processing", "done"])
        (SqlCond.eqStr (SqlExpr.col .sale_line "type") "line")
    tables := tables }

/-- When every required model is registered, the builder succeeds and returns
exactly `warehouse_query_spec` of whether `sale.channel` is registered. -/
theorem get_warehouse_query_eq (pool : List String)
    (hreq : ∀ n ∈ required_tables, n ∈ pool) :
    get_warehouse_query pool =
      Except.ok (warehouse_query_spec (decide ("sale.channel" ∈ pool))) := by
  have h1 : "sale.line" ∈ pool := hreq _ (by simp [required_tables])
  have h2 : "sale.sale" ∈ pool := hreq _ (by simp [required_tables])
  have h3 : "product.template" ∈ pool := hreq _ (by simp [required_tables])
  have h4 : "product.product" ∈ pool := hreq _ (by simp [required_tables])
  have h5 : "product.category" ∈ pool := hreq _ (by simp [required_tables])
  have h6 : "party.party" ∈ pool := hreq _ (by simp [required_tables])
  have h7 : "party.address" ∈ pool := hreq _ (by simp [required_tables])
  have h8 : "country.country" ∈ pool := hreq _ (by simp [required_tables])
  have h9 : "country.subdivision" ∈ pool := hreq _ (by simp [required_tables])
  have h10 : "currency.currency" ∈ pool := hreq _ (by simp [required_tables])
  by_cases hc : "sale.channel" ∈ pool <;>
    simp [get_warehouse_query, table, warehouse_query_spec, Except.bind,
      h1, h2, h3, h4, h5, h6, h7, h8, h9, h10, hc]

/-- Conversely, every successful build returns exactly `warehouse_query_spec`
of whether `sale.channel` is registered: the builder has no other output. -/
theorem get_warehouse_query_ok_elim (pool : List String) (q : WarehouseQuery)
    (h : get_warehouse_query pool = Except.ok q) :
    q = warehouse_query_spec (decide ("sale.channel" ∈ pool)) := by
  by_cases h1 : "sale.line" ∈ pool
  case neg => simp [get_warehouse_query, table, Except.bind, h1] at h
  by_cases h2 : "sale.sale" ∈ pool
  case neg => simp [get_warehouse_query, table, Except.bind, h1, h2] at h
  by_cases h3 : "product.template" ∈ pool
  case neg => simp [get_warehouse_query, table, Except.bind, h1, h2, h3] at h
  by_cases h4 : "product.product" ∈ pool
  case neg =>
    simp [get_warehouse_query, table, Except.bind, h1, h2, h3, h4] at h
  by_cases h5 : "product.category" ∈ pool
  case neg =>
    simp [get_warehouse_query, table, Except.bind, h1, h2, h3, h4, h5] at h
  by_cases h6 : "party.party" ∈ pool
  case neg =>
    simp [get_warehouse_query, table, Except.bind, h1, h2, h3, h4, h5, h6] at h
  by_cases h7 : "party.address" ∈ pool
  case neg =>
    simp [get_warehouse_query, table, Except.bind,
      h1, h2, h3, h4, h5, h6, h7] at h
  by_cases h8 : "country.country" ∈ pool
  case neg =>
    simp [get_warehouse_query, table, Except.bind,
      h1, h2, h3, h4, h5, h6, h7, h8] at h
  by_cases h9 : "country.subdivision" ∈ pool
  case neg =>
    simp [get_warehouse_query, table, Except.bind,
      h1, h2, h3, h4, h5, h6, h7, h8, h9] at h
  by_cases h10 : "currency.currency" ∈ pool
  case neg =>
    simp [get_warehouse_query, table, Except.bind,
      h1, h2, h3, h4, h5, h6, h7, h8, h9, h10] at h
  have hreq : ∀ n ∈ required_tables, n ∈ pool := by
    intro n hn
    simp [required_tables] at hn
    rcases hn with h | h | h | h | h | h | h | h | h | h <;> subst h <;>
      assumption
  rw [get_warehouse_query_eq pool hreq] at h
  exact (Except.ok.inj h).symm

/-- Every successful build returns one of the two reference specifications. -/
theorem get_warehouse_query_ok_cases (pool : List String) (q : WarehouseQuery)
    (h : get_warehouse_query pool = Except.ok q) :
    q = warehouse_query_spec true ∨ q = warehouse_query_spec false := by
  rw [get_warehouse_query_ok_elim pool q h]
  by_cases hc : "sale.channel" ∈ pool
  · left
    simp [hc]
  · right
    simp [hc]

/-- A concrete pool with all required models and no `sale.channel`. -/
def pool_base : List String := required_tables

/-- A concrete pool with all required models and `sale.channel`. -/
def pool_channel : List String := "sale.channel" :: required_tables

/-- Prefix test on character lists (helper for the substring test below). -/
def prefixOfL : List Char → List Char → Bool
  | [], _ => true
  | _ :: _, [] => false
  | a :: as, b :: bs => a == b && prefixOfL as bs

/-- Substring occurrence on character lists. -/
def containsSubL (sub : List Char) : List Char → Bool
  | [] => sub.isEmpty
  | c :: rest => prefixOfL sub (c :: rest) || containsSubL sub rest

/-- Substring test on strings (`sub in s` in Python). -/
def strContains (s sub : String) : Bool := containsSubL sub.toList s.toList

/-- Errors raised by a database statement, as classified by
`refresh_data_warehouse`: the two psycopg2 classes its `except` clause names,
and any other exception class, each carrying the exception message. -/
inductive DbError
  | notSupported (msg : String)
  | programming (msg : String)
  | other (msg : String)
deriving DecidableEq, Repr

/-- The `message` attribute of the exception. -/
def DbError.message : DbError → String
  | .notSupported m => m
  | .programming m => m
  | .other m => m

/-- Whether the error is caught by
`except (psycopg2.NotSupportedError, psycopg2.ProgrammingError)`. -/
def DbError.caught : DbError → Bool
  | .notSupported _ => true
  | .programming _ => true
  | .other _ => false

/-- The condition under which the code falls back to a blocking refresh: a
caught exception class whose message contains the word CONCURRENTLY. -/
def unsupported_mode (e : DbError) : Bool :=
  e.caught && strContains e.message "CONCURRENTLY"

/-- Observable events of one `refresh_data_warehouse` call. -/
inductive Event
  | logMsg (m : String)
  | newTransaction
  | execute (sql : String)
  | commit
  | rollback
deriving DecidableEq, Repr

/-- Embedding of `SaleLine.refresh_data_warehouse` (src/sale.py lines
186-218).  `psycopg2` says whether the driver imported; `concurrentResult` and
`blockingResult` are the outcomes (`none` = success) of executing the
concurrent and the blocking REFRESH statement.  Returns the event trace and
the error propagated to the caller (`none` = normal return). -/
def refresh_data_warehouse (psycopg2 : Bool)
    (concurrentResult blockingResult : Option DbError) :
    List Event × Option DbError :=
  if psycopg2 then
    match concurrentResult with
    | none =>
        ([Event.newTransaction,
          Event.execute "REFRESH MATERIALIZED VIEW CONCURRENTLY dw_sale_line",
          Event.commit], none)
    | some e =>
        let pre : List Event :=
          [Event.newTransaction,
           Event.execute "REFRESH MATERIALIZED VIEW CONCURRENTLY dw_sale_line"]
        if e.caught then
          if strContains e.message "CONCURRENTLY" then
            let pre2 := pre ++
              [Event.logMsg
                 "CONCURRENTLY Materialized refresh failed, proceeding to Normal refresh",
               Event.rollback,
               Event.newTransaction,
               Event.execute "REFRESH MATERIALIZED VIEW dw_sale_line"]
            match blockingResult with
            | none => (pre2 ++ [Event.commit], none)
            | some e2 => (pre2, some e2)
          else
            -- Raise if error is not because of CONCURRENTLY
            (pre, some e)
        else (pre, some e)
  else
    ([Event.logMsg "psycopg2 not found"], none)

/-- SQL statements issued by `build_data_warehouse`, with their parameters.
The CREATE statement carries the rendered select (its join graph, columns and
where clause); the source renders it to text, which is a bijective image of
this data. -/
inductive SetupStmt
  | dropMaterializedViewIfExists (name : String)
  | createMaterializedViewWithNoData (name : String)
      (from_ : FromClause) (columns : List Column) (whereClause : SqlCond)
  | createUniqueIndex (indexName : String) (name : String) (column : String)
deriving DecidableEq, Repr

/-- Embedding of `SaleLine.build_data_warehouse` (src/sale.py lines 163-184):
obtain the query, then issue DROP IF EXISTS, CREATE ... WITH NO DATA from the
rendered select, and CREATE UNIQUE INDEX, in that order.  A `KeyError` from
the builder propagates. -/
def build_data_warehouse (pool : List String) :
    Except String (List SetupStmt) :=
  Except.bind (get_warehouse_query pool) fun q =>
  Except.ok
    [SetupStmt.dropMaterializedViewIfExists "dw_sale_line",
     SetupStmt.createMaterializedViewWithNoData "dw_sale_line"
       q.from_ q.columns q.whereClause,
     SetupStmt.createUniqueIndex "unique_id" "dw_sale_line" "id"]

/-- Engine-side state of the snapshot structure: its definition if it exists,
its rows (by row id), and the column of its unique index if one exists.
Modelled from the documented engine contract for the three setup statements. -/
structure EngineState where
  matview : Option (FromClause × List Column × SqlCond)
  rows : List Nat
  uniqueIndexOn : Option String
deriving DecidableEq, Repr

/-- Engine semantics of one setup statement: DROP IF EXISTS never fails and
removes the structure with its index; CREATE fails on a duplicate structure
and otherwise installs the definition with no rows; CREATE UNIQUE INDEX fails
without the structure and otherwise records the indexed column. -/
def execSetupStmt (s : EngineState) : SetupStmt → Except String EngineState
  | SetupStmt.dropMaterializedViewIfExists _ =>
      Except.ok { matview := none, rows := [], uniqueIndexOn := none }
  | SetupStmt.createMaterializedViewWithNoData _ f cs w =>
      match s.matview with
      | some _ => Except.error "relation already exists"
      | none =>
          Except.ok { matview := some (f, cs, w), rows := [],
                      uniqueIndexOn := none }
  | SetupStmt.createUniqueIndex _ _ col =>
      match s.matview with
      | none => Except.error "relation does not exist"
      | some _ => Except.ok { s with uniqueIndexOn := some col }

/-- Execute a statement list in order against an engine state, stopping at the
first engine error. -/
def run_stmts (s : EngineState) : List SetupStmt → Except String EngineState
  | [] => Except.ok s
  | stmt :: rest =>
    match execSetupStmt s stmt with
    | Except.error e => Except.error e
    | Except.ok s1 => run_stmts s1 rest

/-- Run `build_data_warehouse` against an engine state. -/
def run_build (pool : List String) (s : EngineState) :
    Except String EngineState :=
  Except.bind (build_data_warehouse pool) fun stmts => run_stmts s stmts

/-- Number of occurrences of an event in a trace. -/
def countEvent (ev : Event) : List Event → Nat
  | [] => 0
  | e :: rest => (if e = ev then 1 else 0) + countEvent ev rest

/-- Whether the condition of a join equates some column of a previously joined
table to the `id` column of the table being joined. -/
def fk_eq_join (j : Join) : Bool :=
  match j.condition with
  | SqlCond.eqCol (SqlExpr.col _ _) (SqlExpr.col t f) =>
      t == j.tbl && f == "id"
  | _ => false

/-- Observable events of `SaleLine.__register__`. -/
inductive RegisterEvent
  | superRegister (module_name : String)
  | buildDataWarehouse
deriving DecidableEq, Repr

/-- Embedding of `SaleLine.__register__` (src/sale.py lines 26-30): call the
parent registration, then, unless `Pool.test` is set, build the warehouse. -/
def SaleLine_register (test : Bool) (module_name : String) :
    List RegisterEvent :=
  [RegisterEvent.superRegister module_name] ++
    (if test then [] else [RegisterEvent.buildDataWarehouse])

/-- C2: every view specification the builder produces has as its row filter
exactly the conjunction of order-state membership in
{confirmed, processing, done} and line-type equality with "line", whether or
not the optional channel entity is present. -/
theorem C2_filter_exact (pool : List String) (q : WarehouseQuery)
    (h : get_warehouse_query pool = Except.ok q) :
    q.whereClause =
      SqlCond.and
        (SqlCond.inList (SqlExpr.col .sale_sale "state")
          ["confirmed", "processing", "done"])
        (SqlCond.eqStr (SqlExpr.col .sale_line "type") "line") := by
  rcases get_warehouse_query_ok_cases pool q h with h' | h' <;> subst h' <;> rfl

/-- Witness for C2 at a concrete pool. -/
theorem C2_filter_exact_witness :
    (warehouse_query_spec false).whereClause =
      SqlCond.and
        (SqlCond.inList (SqlExpr.col .sale_sale "state")
          ["confirmed", "processing", "done"])
        (SqlCond.eqStr (SqlExpr.col .sale_line "type") "line") :=
  C2_filter_exact pool_base (warehouse_query_spec false) (by rfl)

/-- C4: in every view specification the builder produces, the columns before
any optional channel extension are exactly, in order: id, quantity, amount
(quantity times unit price), product code, product name, product category,
party name, party id, sale id, sale reference, currency code, state, invoice
country code/name, invoice subdivision code/name, shipment country code/name,
shipment subdivision code/name, sale date, and the sale date rendered by
ToChar with the YYYY, MM and dd patterns, each with its stable alias; when
the channel entity is absent these are the whole column list. -/
theorem C4_columns_exact (pool : List String) (q : WarehouseQuery)
    (h : get_warehouse_query pool = Except.ok q) :
    q.columns.take 24 =
      [⟨SqlExpr.col .sale_line "id", "id"⟩,
       ⟨SqlExpr.col .sale_line "quantity", "quantity"⟩,
       ⟨SqlExpr.mul (SqlExpr.col .sale_line "quantity")
          (SqlExpr.col .sale_line "unit_price"), "amount"⟩,
       ⟨SqlExpr.col .product_product "code", "product_code"⟩,
       ⟨SqlExpr.col .product_template "name", "product_name"⟩,
       ⟨SqlExpr.col .product_category "name", "product_category"⟩,
       ⟨SqlExpr.col .party_party "name", "party_name"⟩,
       ⟨SqlExpr.col .party_party "id", "party_id"⟩,
       ⟨SqlExpr.col .sale_sale "id", "sale_id"⟩,
       ⟨SqlExpr.col .sale_sale "reference", "sale_reference"⟩,
       ⟨SqlExpr.col .currency_currency "code", "currency"⟩,
       ⟨SqlExpr.col .sale_sale "state", "state"⟩,
       ⟨SqlExpr.col .invoice_country "code", "invoice_country_code"⟩,
       ⟨SqlExpr.col .invoice_country "name", "invoice_country_name"⟩,
       ⟨SqlExpr.col .invoice_subdivision "code", "invoice_state_code"⟩,
       ⟨SqlExpr.col .invoice_subdivision "name", "invoice_state_name"⟩,
       ⟨SqlExpr.col .shipment_country "code", "shipment_country_code"⟩,
       ⟨SqlExpr.col .shipment_country "name", "shipment_country_name"⟩,
       ⟨SqlExpr.col .shipment_subdivision "code", "shipment_state_code"⟩,
       ⟨SqlExpr.col .shipment_subdivision "name", "shipment_state_name"⟩,
       ⟨SqlExpr.col .sale_sale "sale_date", "sale_date"⟩,
       ⟨SqlExpr.toChar (SqlExpr.col .sale_sale "sale_date") "YYYY",
        "sale_year"⟩,
       ⟨SqlExpr.toChar (SqlExpr.col .sale_sale "sale_date") "MM",
        "sale_month"⟩,
       ⟨SqlExpr.toChar (SqlExpr.col .sale_sale "sale_date") "dd",
        "sale_day"⟩] ∧
    ("sale.channel" ∉ pool → q.columns = q.columns.take 24) := by
  have hq := get_warehouse_query_ok_elim pool q h
  constructor
  · by_cases hc : "sale.channel" ∈ pool <;> simp [hc] at hq <;> subst hq <;>
      decide
  · intro hc
    simp [hc] at hq
    subst hq
    decide

/-- Witness for C4 at a concrete pool. -/
theorem C4_columns_exact_witness :
    (warehouse_query_spec false).columns.take 24 =
      [⟨SqlExpr.col .sale_line "id", "id"⟩,
       ⟨SqlExpr.col .sale_line "quantity", "quantity"⟩,
       ⟨SqlExpr.mul (SqlExpr.col .sale_line "quantity")
          (SqlExpr.col .sale_line "unit_price"), "amount"⟩,
       ⟨SqlExpr.col .product_product "code", "product_code"⟩,
       ⟨SqlExpr.col .product_template "name", "product_name"⟩,
       ⟨SqlExpr.col .product_category "name", "product_category"⟩,
       ⟨SqlExpr.col .party_party "name", "party_name"⟩,
       ⟨SqlExpr.col .party_party "id", "party_id"⟩,
       ⟨SqlExpr.col .sale_sale "id", "sale_id"⟩,
       ⟨SqlExpr.col .sale_sale "reference", "sale_reference"⟩,
       ⟨SqlExpr.col .currency_currency "code", "currency"⟩,
       ⟨SqlExpr.col .sale_sale "state", "state"⟩,
       ⟨SqlExpr.col .invoice_country "code", "invoice_country_code"⟩,
       ⟨SqlExpr.col .invoice_country "name", "invoice_country_name"⟩,
       ⟨SqlExpr.col .invoice_subdivision "code", "invoice_state_code"⟩,
       ⟨SqlExpr.col .invoice_subdivision "name", "invoice_state_name"⟩,
       ⟨SqlExpr.col .shipment_country "code", "shipment_country_code"⟩,
       ⟨SqlExpr.col .shipment_country "name", "shipment_country_name"⟩,
       ⟨SqlExpr.col .shipment_subdivision "code", "shipment_state_code"⟩,
       ⟨SqlExpr.col .shipment_subdivision "name", "shipment_state_name"⟩,
       ⟨SqlExpr.col .sale_sale "sale_date", "sale_date"⟩,
       ⟨SqlExpr.toChar (SqlExpr.col .sale_sale "sale_date") "YYYY",
        "sale_year"⟩,
       ⟨SqlExpr.toChar (SqlExpr.col .sale_sale "sale_date") "MM",
        "sale_month"⟩,
       ⟨SqlExpr.toChar (SqlExpr.col .sale_sale "sale_date") "dd",
        "sale_day"⟩] ∧
    ¬ ("sale.channel" ∈ pool_base) ∧
    (warehouse_query_spec false).columns =
      (warehouse_query_spec false).columns.take 24 := by
  have h := C4_columns_exact pool_base (warehouse_query_spec false) (by rfl)
  exact ⟨h.1, by decide, h.2 (by decide)⟩

/-- C10: the lookup mapping returned by the builder has exactly the six
entries for the sale line, sale order, product template, product, product
category and party handles, and contains none of the address, country,
subdivision, currency or channel handles, whether or not the channel entity
is present. -/
theorem C10_tables_mapping (pool : List String) (q : WarehouseQuery)
    (h : get_warehouse_query pool = Except.ok q) :
    q.tables =
      [("sale.line", TableHandle.sale_line),
       ("sale.sale", TableHandle.sale_sale),
       ("product.template", TableHandle.product_template),
       ("product.product", TableHandle.product_product),
       ("product.category", TableHandle.product_category),
       ("party.party", TableHandle.party_party)] ∧
    ∀ p ∈ q.tables,
      p.2 ∉ [TableHandle.shipment_address, TableHandle.invoice_address,
             TableHandle.invoice_country, TableHandle.invoice_subdivision,
             TableHandle.shipment_country, TableHandle.currency_currency,
             TableHandle.shipment_subdivision, TableHandle.sale_channel] := by
  rcases get_warehouse_query_ok_cases pool q h with h' | h' <;> subst h' <;>
    exact ⟨by decide, by intro p hp; fin_cases hp <;> decide⟩

/-- Witness for C10 at a concrete pool. -/
theorem C10_tables_mapping_witness :
    (warehouse_query_spec false).tables =
      [("sale.line", TableHandle.sale_line),
       ("sale.sale", TableHandle.sale_sale),
       ("product.template", TableHandle.product_template),
       ("product.product", TableHandle.product_product),
       ("product.category", TableHandle.product_category),
       ("party.party", TableHandle.party_party)] ∧
    ∀ p ∈ (warehouse_query_spec false).tables,
      p.2 ∉ [TableHandle.shipment_address, TableHandle.invoice_address,
             TableHandle.invoice_country, TableHandle.invoice_subdivision,
             TableHandle.shipment_country, TableHandle.currency_currency,
             TableHandle.shipment_subdivision, TableHandle.sale_channel] :=
  C10_tables_mapping pool_base (warehouse_query_spec false) (by rfl)

/-- C3: in every view specification the builder produces, the base is the
sale line, the first join (to the order) is inner and every other join is
left-outer, every join condition equates a referencing column to the joined
table id, and the join list is exactly the twelve-entry chain below,
extended by the channel join when the channel entity is present. -/
theorem C3_join_topology (pool : List String) (q : WarehouseQuery)
    (h : get_warehouse_query pool = Except.ok q) :
    q.from_.base = TableHandle.sale_line ∧
    q.from_.joins.map Join.type_ =
      JoinType.inner ::
        List.replicate (q.from_.joins.length - 1) JoinType.leftOuter ∧
    (∀ j ∈ q.from_.joins, fk_eq_join j = true) ∧
    (q.from_.joins =
       [⟨.sale_sale, .inner,
         .eqCol (.col .sale_line "sale") (.col .sale_sale "id")⟩,
        ⟨.product_product, .leftOuter,
         .eqCol (.col .sale_line "product") (.col .product_product "id")⟩,
        ⟨.product_template, .leftOuter,
         .eqCol (.col .product_product "template")
           (.col .product_template "id")⟩,
        ⟨.product_category, .leftOuter,
         .eqCol (.col .product_template "category")
           (.col .product_category "id")⟩,
        ⟨.party_party, .leftOuter,
         .eqCol (.col .sale_sale "party") (.col .party_party "id")⟩,
        ⟨.shipment_address, .leftOuter,
         .eqCol (.col .sale_sale "shipment_address")
           (.col .shipment_address "id")⟩,
        ⟨.shipment_country, .leftOuter,
         .eqCol (.col .shipment_address "country")
           (.col .shipment_country "id")⟩,
        ⟨.shipment_subdivision, .leftOuter,
         .eqCol (.col .shipment_address "subdivision")
           (.col .shipment_subdivision "id")⟩,
        ⟨.invoice_address, .leftOuter,
         .eqCol (.col .sale_sale "invoice_address")
           (.col .invoice_address "id")⟩,
        ⟨.invoice_country, .leftOuter,
         .eqCol (.col .invoice_address "country")
           (.col .invoice_country "id")⟩,
        ⟨.invoice_subdivision, .leftOuter,
         .eqCol (.col .invoice_address "subdivision")
           (.col .invoice_subdivision "id")⟩,
        ⟨.currency_currency, .leftOuter,
         .eqCol (.col .sale_sale "currency")
           (.col .currency_currency "id")⟩] ∨
     q.from_.joins =
       [⟨.sale_sale, .inner,
         .eqCol (.col .sale_line "sale") (.col .sale_sale "id")⟩,
        ⟨.product_product, .leftOuter,
         .eqCol (.col .sale_line "product") (.col .product_product "id")⟩,
        ⟨.product_template, .leftOuter,
         .eqCol (.col .product_product "template")
           (.col .product_template "id")⟩,
        ⟨.product_category, .leftOuter,
         .eqCol (.col .product_template "category")
           (.col .product_category "id")⟩,
        ⟨.party_party, .leftOuter,
         .eqCol (.col .sale_sale "party") (.col .party_party "id")⟩,
        ⟨.shipment_address, .leftOuter,
         .eqCol (.col .sale_sale "shipment_address")
           (.col .shipment_address "id")⟩,
        ⟨.shipment_country, .leftOuter,
         .eqCol (.col .shipment_address "country")
           (.col .shipment_country "id")⟩,
        ⟨.shipment_subdivision, .leftOuter,
         .eqCol (.col .shipment_address "subdivision")
           (.col .shipment_subdivision "id")⟩,
        ⟨.invoice_address, .leftOuter,
         .eqCol (.col .sale_sale "invoice_address")
           (.col .invoice_address "id")⟩,
        ⟨.invoice_country, .leftOuter,
         .eqCol (.col .invoice_address "country")
           (.col .invoice_country "id")⟩,
        ⟨.invoice_subdivision, .leftOuter,
         .eqCol (.col .invoice_address "subdivision")
           (.col .invoice_subdivision "id")⟩,
        ⟨.currency_currency, .leftOuter,
         .eqCol (.col .sale_sale "currency")
           (.col .currency_currency "id")⟩,
        ⟨.sale_channel, .leftOuter,
         .eqCol (.col .sale_sale "channel") (.col .sale_channel "id")⟩]) := by
  rcases get_warehouse_query_ok_cases pool q h with h' | h' <;> subst h' <;>
    refine ⟨by decide, by decide, by intro j hj; fin_cases hj <;> decide, ?_⟩
  · right
    decide
  · left
    decide

/-- Witness for C3 at a concrete pool with the channel entity present. -/
theorem C3_join_topology_witness :
    (warehouse_query_spec true).from_.base = TableHandle.sale_line ∧
    (warehouse_query_spec true).from_.joins.map Join.type_ =
      JoinType.inner ::
        List.replicate ((warehouse_query_spec true).from_.joins.length - 1)
          JoinType.leftOuter ∧
    (∀ j ∈ (warehouse_query_spec true).from_.joins, fk_eq_join j = true) ∧
    ((warehouse_query_spec true).from_.joins =
       [⟨.sale_sale, .inner,
         .eqCol (.col .sale_line "sale") (.col .sale_sale "id")⟩,
        ⟨.product_product, .leftOuter,
         .eqCol (.col .sale_line "product") (.col .product_product "id")⟩,
        ⟨.product_template, .leftOuter,
         .eqCol (.col .product_product "template")
           (.col .product_template "id")⟩,
        ⟨.product_category, .leftOuter,
         .eqCol (.col .product_template "category")
           (.col .product_category "id")⟩,
        ⟨.party_party, .leftOuter,
         .eqCol (.col .sale_sale "party") (.col .party_party "id")⟩,
        ⟨.shipment_address, .leftOuter,
         .eqCol (.col .sale_sale "shipment_address")
           (.col .shipment_address "id")⟩,
        ⟨.shipment_country, .leftOuter,
         .eqCol (.col .shipment_address "country")
           (.col .shipment_country "id")⟩,
        ⟨.shipment_subdivision, .leftOuter,
         .eqCol (.col .shipment_address "subdivision")
           (.col .shipment_subdivision "id")⟩,
        ⟨.invoice_address, .leftOuter,
         .eqCol (.col .sale_sale "invoice_address")
           (.col .invoice_address "id")⟩,
        ⟨.invoice_country, .leftOuter,
         .eqCol (.col .invoice_address "country")
           (.col .invoice_country "id")⟩,
        ⟨.invoice_subdivision, .leftOuter,
         .eqCol (.col .invoice_address "subdivision")
           (.col .invoice_subdivision "id")⟩,
        ⟨.currency_currency, .leftOuter,
         .eqCol (.col .sale_sale "currency")
           (.col .currency_currency "id")⟩] ∨
     (warehouse_query_spec true).from_.joins =
       [⟨.sale_sale, .inner,
         .eqCol (.col .sale_line "sale") (.col .sale_sale "id")⟩,
        ⟨.product_product, .leftOuter,
         .eqCol (.col .sale_line "product") (.col .product_product "id")⟩,
        ⟨.product_template, .leftOuter,
         .eqCol (.col .product_product "template")
           (.col .product_template "id")⟩,
        ⟨.product_category, .leftOuter,
         .eqCol (.col .product_template "category")
           (.col .product_category "id")⟩,
        ⟨.party_party, .leftOuter,
         .eqCol (.col .sale_sale "party") (.col .party_party "id")⟩,
        ⟨.shipment_address, .leftOuter,
         .eqCol (.col .sale_sale "shipment_address")
           (.col .shipment_address "id")⟩,
        ⟨.shipment_country, .leftOuter,
         .eqCol (.col .shipment_address "country")
           (.col .shipment_country "id")⟩,
        ⟨.shipment_subdivision, .leftOuter,
         .eqCol (.col .shipment_address "subdivision")
           (.col .shipment_subdivision "id")⟩,
        ⟨.invoice_address, .leftOuter,
         .eqCol (.col .sale_sale "invoice_address")
           (.col .invoice_address "id")⟩,
        ⟨.invoice_country, .leftOuter,
         .eqCol (.col .invoice_address "country")
           (.col .invoice_country "id")⟩,
        ⟨.invoice_subdivision, .leftOuter,
         .eqCol (.col .invoice_address "subdivision")
           (.col .invoice_subdivision "id")⟩,
        ⟨.currency_currency, .leftOuter,
         .eqCol (.col .sale_sale "currency")
           (.col .currency_currency "id")⟩,
        ⟨.sale_channel, .leftOuter,
         .eqCol (.col .sale_sale "channel") (.col .sale_channel "id")⟩]) :=
  C3_join_topology pool_channel (warehouse_query_spec true) (by rfl)

/-- C5: with every required model registered, the builder returns normally in
both channel cases: without `sale.channel` its output is the channel-free
specification, and with `sale.channel` its output is that same specification
with exactly one extra left-outer join on the channel reference of the order and
the two channel columns appended at the end. -/
theorem C5_channel_optional (pool : List String)
    (hreq : ∀ n ∈ required_tables, n ∈ pool) :
    ("sale.channel" ∉ pool →
       get_warehouse_query pool =
         Except.ok (warehouse_query_spec false)) ∧
    ("sale.channel" ∈ pool →
       get_warehouse_query pool =
         Except.ok
           { from_ :=
               { base := (warehouse_query_spec false).from_.base
                 joins := (warehouse_query_spec false).from_.joins ++
                   [⟨.sale_channel, .leftOuter,
                     .eqCol (.col .sale_sale "channel")
                       (.col .sale_channel "id")⟩] }
             columns := (warehouse_query_spec false).columns ++
               [⟨SqlExpr.col .sale_channel "code", "channel_code"⟩,
                ⟨SqlExpr.col .sale_channel "name", "channel_name"⟩]
             whereClause := (warehouse_query_spec false).whereClause
             tables := (warehouse_query_spec false).tables }) := by
  constructor
  · intro hc
    rw [get_warehouse_query_eq pool hreq]
    simp [hc]
  · intro hc
    rw [get_warehouse_query_eq pool hreq]
    have hd : decide ("sale.channel" ∈ pool) = true := by simp [hc]
    rw [hd]
    exact congrArg Except.ok (by decide)

/-- Witness for C5 at the two concrete pools. -/
theorem C5_channel_optional_witness :
    get_warehouse_query pool_base =
      Except.ok (warehouse_query_spec false) ∧
    get_warehouse_query pool_channel =
      Except.ok
        { from_ :=
            { base := (warehouse_query_spec false).from_.base
              joins := (warehouse_query_spec false).from_.joins ++
                [⟨.sale_channel, .leftOuter,
                  .eqCol (.col .sale_sale "channel")
                    (.col .sale_channel "id")⟩] }
          columns := (warehouse_query_spec false).columns ++
            [⟨SqlExpr.col .sale_channel "code", "channel_code"⟩,
             ⟨SqlExpr.col .sale_channel "name", "channel_name"⟩]
          whereClause := (warehouse_query_spec false).whereClause
          tables := (warehouse_query_spec false).tables } :=
  ⟨(C5_channel_optional pool_base (by decide)).1 (by decide),
   (C5_channel_optional pool_channel (by decide)).2 (by decide)⟩

/-- C1: with the driver available, a failed concurrent refresh whose error is
a caught class (NotSupportedError or ProgrammingError) containing the word
CONCURRENTLY leads to rollback, a fresh transaction, the blocking refresh and
a commit, returning normally; any other failure propagates unchanged, with no
blocking statement and no commit in the trace. -/
theorem C1_fallback_dispatch (e : DbError) :
    (unsupported_mode e = true →
       refresh_data_warehouse true (some e) none =
         ([Event.newTransaction,
           Event.execute "REFRESH MATERIALIZED VIEW CONCURRENTLY dw_sale_line",
           Event.logMsg
             "CONCURRENTLY Materialized refresh failed, proceeding to Normal refresh",
           Event.rollback,
           Event.newTransaction,
           Event.execute "REFRESH MATERIALIZED VIEW dw_sale_line",
           Event.commit], none)) ∧
    (unsupported_mode e = false →
       ∀ b : Option DbError,
         refresh_data_warehouse true (some e) b =
           ([Event.newTransaction,
             Event.execute
               "REFRESH MATERIALIZED VIEW CONCURRENTLY dw_sale_line"],
            some e)) := by
  constructor
  · intro h
    rw [unsupported_mode, Bool.and_eq_true] at h
    simp [refresh_data_warehouse, h.1, h.2]
  · intro h b
    cases hc : e.caught
    · simp [refresh_data_warehouse, hc]
    · cases hs : strContains e.message "CONCURRENTLY"
      · simp [refresh_data_warehouse, hc, hs]
      · rw [unsupported_mode, hc, hs] at h
        simp at h

/-- Witness for C1: an unsupported-mode error takes the fallback path, an
unrelated error propagates with no fallback. -/
theorem C1_fallback_dispatch_witness :
    refresh_data_warehouse true
        (some (DbError.notSupported
          "cannot refresh materialized view CONCURRENTLY without a unique index"))
        none =
      ([Event.newTransaction,
        Event.execute "REFRESH MATERIALIZED VIEW CONCURRENTLY dw_sale_line",
        Event.logMsg
          "CONCURRENTLY Materialized refresh failed, proceeding to Normal refresh",
        Event.rollback,
        Event.newTransaction,
        Event.execute "REFRESH MATERIALIZED VIEW dw_sale_line",
        Event.commit], none) ∧
    refresh_data_warehouse true (some (DbError.other "connection lost"))
        none =
      ([Event.newTransaction,
        Event.execute "REFRESH MATERIALIZED VIEW CONCURRENTLY dw_sale_line"],
       some (DbError.other "connection lost")) :=
  ⟨(C1_fallback_dispatch _).1 (by decide),
   (C1_fallback_dispatch _).2 (by decide) none⟩

/-- C7: with the driver unavailable, a refresh call returns normally, its
trace is the single capability-absent log line, and it opens no transaction,
executes no statement and commits nothing. -/
theorem C7_no_driver (c b : Option DbError) :
    refresh_data_warehouse false c b =
      ([Event.logMsg "psycopg2 not found"], none) ∧
    Event.newTransaction ∉ (refresh_data_warehouse false c b).1 ∧
    (∀ s, Event.execute s ∉ (refresh_data_warehouse false c b).1) ∧
    Event.commit ∉ (refresh_data_warehouse false c b).1 := by
  refine ⟨rfl, ?_, ?_, ?_⟩ <;> simp [refresh_data_warehouse]

/-- Witness for C7 at concrete statement outcomes. -/
theorem C7_no_driver_witness :
    refresh_data_warehouse false
        (some (DbError.other "unreachable")) none =
      ([Event.logMsg "psycopg2 not found"], none) :=
  (C7_no_driver (some (DbError.other "unreachable")) none).1

/-- C9: in every refresh call the concurrent statement appears at most once
and the blocking statement at most once in the trace, and when the blocking
fallback itself fails, its error (a second unsupported-mode error included)
propagates to the caller with no further statement. -/
theorem C9_single_attempts (p : Bool) (c b : Option DbError) :
    countEvent
        (Event.execute "REFRESH MATERIALIZED VIEW CONCURRENTLY dw_sale_line")
        (refresh_data_warehouse p c b).1 ≤ 1 ∧
    countEvent (Event.execute "REFRESH MATERIALIZED VIEW dw_sale_line")
        (refresh_data_warehouse p c b).1 ≤ 1 ∧
    (∀ e e2 : DbError, unsupported_mode e = true →
       refresh_data_warehouse true (some e) (some e2) =
         ([Event.newTransaction,
           Event.execute "REFRESH MATERIALIZED VIEW CONCURRENTLY dw_sale_line",
           Event.logMsg
             "CONCURRENTLY Materialized refresh failed, proceeding to Normal refresh",
           Event.rollback,
           Event.newTransaction,
           Event.execute "REFRESH MATERIALIZED VIEW dw_sale_line"],
          some e2)) := by
  refine ⟨?_, ?_, ?_⟩
  · cases p
    · simp [refresh_data_warehouse, countEvent]
    · rcases c with _ | e
      · simp [refresh_data_warehouse, countEvent]
      · cases hc : e.caught <;> cases hs : strContains e.message "CONCURRENTLY" <;>
          rcases b with _ | e2 <;>
          simp [refresh_data_warehouse, hc, hs, countEvent]
  · cases p
    · simp [refresh_data_warehouse, countEvent]
    · rcases c with _ | e
      · simp [refresh_data_warehouse, countEvent]
      · cases hc : e.caught <;> cases hs : strContains e.message "CONCURRENTLY" <;>
          rcases b with _ | e2 <;>
          simp [refresh_data_warehouse, hc, hs, countEvent]
  · intro e e2 h
    rw [unsupported_mode, Bool.and_eq_true] at h
    simp [refresh_data_warehouse, h.1, h.2]

/-- Witness for C9 at concrete inputs, including a second unsupported-mode
error on the blocking path. -/
theorem C9_single_attempts_witness :
    countEvent
        (Event.execute "REFRESH MATERIALIZED VIEW CONCURRENTLY dw_sale_line")
        (refresh_data_warehouse true
          (some (DbError.programming "ERROR: CONCURRENTLY refresh failed"))
          (some (DbError.notSupported "second CONCURRENTLY failure"))).1 ≤ 1 ∧
    countEvent (Event.execute "REFRESH MATERIALIZED VIEW dw_sale_line")
        (refresh_data_warehouse true
          (some (DbError.programming "ERROR: CONCURRENTLY refresh failed"))
          (some (DbError.notSupported "second CONCURRENTLY failure"))).1 ≤ 1 ∧
    refresh_data_warehouse true
        (some (DbError.programming "ERROR: CONCURRENTLY refresh failed"))
        (some (DbError.notSupported "second CONCURRENTLY failure")) =
      ([Event.newTransaction,
        Event.execute "REFRESH MATERIALIZED VIEW CONCURRENTLY dw_sale_line",
        Event.logMsg
          "CONCURRENTLY Materialized refresh failed, proceeding to Normal refresh",
        Event.rollback,
        Event.newTransaction,
        Event.execute "REFRESH MATERIALIZED VIEW dw_sale_line"],
       some (DbError.notSupported "second CONCURRENTLY failure")) := by
  have h := C9_single_attempts true
    (some (DbError.programming "ERROR: CONCURRENTLY refresh failed"))
    (some (DbError.notSupported "second CONCURRENTLY failure"))
  exact ⟨h.1, h.2.1, h.2.2 _ _ (by decide)⟩

/-- C6: with the builder succeeding, setup issues exactly the drop-if-exists,
create-with-no-data and create-unique-index statements in that order, and
running them from any engine state yields the snapshot structure with the
rendered definition, no rows and the unique index on id; running setup again
from that state raises no duplicate error and yields the same state. -/
theorem C6_build_idempotent (pool : List String) (q : WarehouseQuery)
    (h : get_warehouse_query pool = Except.ok q) (s : EngineState) :
    build_data_warehouse pool =
      Except.ok
        [SetupStmt.dropMaterializedViewIfExists "dw_sale_line",
         SetupStmt.createMaterializedViewWithNoData "dw_sale_line"
           q.from_ q.columns q.whereClause,
         SetupStmt.createUniqueIndex "unique_id" "dw_sale_line" "id"] ∧
    run_build pool s =
      Except.ok { matview := some (q.from_, q.columns, q.whereClause),
                  rows := [], uniqueIndexOn := some "id" } ∧
    Except.bind (run_build pool s) (fun s1 => run_build pool s1) =
      run_build pool s := by
  have hb : build_data_warehouse pool =
      Except.ok
        [SetupStmt.dropMaterializedViewIfExists "dw_sale_line",
         SetupStmt.createMaterializedViewWithNoData "dw_sale_line"
           q.from_ q.columns q.whereClause,
         SetupStmt.createUniqueIndex "unique_id" "dw_sale_line" "id"] := by
    simp [build_data_warehouse, h, Except.bind]
  have hr : run_build pool s =
      Except.ok { matview := some (q.from_, q.columns, q.whereClause),
                  rows := [], uniqueIndexOn := some "id" } := by
    simp [run_build, hb, Except.bind, run_stmts, execSetupStmt]
  refine ⟨hb, hr, ?_⟩
  rw [hr]
  show run_build pool _ = _
  simp [run_build, hb, Except.bind, run_stmts, execSetupStmt]

/-- Witness for C6: setup run from a state that already holds a populated
snapshot with an index. -/
theorem C6_build_idempotent_witness :
    build_data_warehouse pool_base =
      Except.ok
        [SetupStmt.dropMaterializedViewIfExists "dw_sale_line",
         SetupStmt.createMaterializedViewWithNoData "dw_sale_line"
           (warehouse_query_spec false).from_
           (warehouse_query_spec false).columns
           (warehouse_query_spec false).whereClause,
         SetupStmt.createUniqueIndex "unique_id" "dw_sale_line" "id"] ∧
    run_build pool_base
        { matview := some ((warehouse_query_spec false).from_,
            (warehouse_query_spec false).columns,
            (warehouse_query_spec false).whereClause),
          rows := [7, 8], uniqueIndexOn := some "id" } =
      Except.ok { matview := some ((warehouse_query_spec false).from_,
                    (warehouse_query_spec false).columns,
                    (warehouse_query_spec false).whereClause),
                  rows := [], uniqueIndexOn := some "id" } ∧
    Except.bind
        (run_build pool_base
          { matview := some ((warehouse_query_spec false).from_,
              (warehouse_query_spec false).columns,
              (warehouse_query_spec false).whereClause),
            rows := [7, 8], uniqueIndexOn := some "id" })
        (fun s1 => run_build pool_base s1) =
      run_build pool_base
        { matview := some ((warehouse_query_spec false).from_,
            (warehouse_query_spec false).columns,
            (warehouse_query_spec false).whereClause),
          rows := [7, 8], uniqueIndexOn := some "id" } :=
  C6_build_idempotent pool_base (warehouse_query_spec false) (by rfl)
    { matview := some ((warehouse_query_spec false).from_,
        (warehouse_query_spec false).columns,
        (warehouse_query_spec false).whereClause),
      rows := [7, 8], uniqueIndexOn := some "id" }

/-- C8: in test mode the registration hook performs only the parent
registration and never invokes the warehouse setup; in non-test mode it
invokes the setup exactly once, after the parent registration. -/
theorem C8_register_test_skip (module_name : String) :
    SaleLine_register true module_name =
      [RegisterEvent.superRegister module_name] ∧
    RegisterEvent.buildDataWarehouse ∉ SaleLine_register true module_name ∧
    SaleLine_register false module_name =
      [RegisterEvent.superRegister module_name,
       RegisterEvent.buildDataWarehouse] := by
  refine ⟨rfl, ?_, rfl⟩
  simp [SaleLine_register]

/-- Witness for C8 at a concrete module name. -/
theorem C8_register_test_skip_witness :
    SaleLine_register true "sale_data_warehouse" =
      [RegisterEvent.superRegister "sale_data_warehouse"] ∧
    RegisterEvent.buildDataWarehouse ∉
      SaleLine_register true "sale_data_warehouse" ∧
    SaleLine_register false "sale_data_warehouse" =
      [RegisterEvent.superRegister "sale_data_warehouse",
       RegisterEvent.buildDataWarehouse] :=
  C8_register_test_skip "sale_data_warehouse"

end SaleDataWarehouse
